import Mathlib

/-!
Verification development for `plugins/trezor/clientbase.py` of the lbryum
repository: a shallow embedding of the `GuiMixin` callback dispatcher and the
`TrezorClientBase` session layer, together with theorems settling the frozen
claims about them.

Python strings are modelled as Lean `String`; the handful of Python `str`
operations the source uses (`split`, `replace`, `endswith`, `startswith`,
`int(...)`, `%`-formatting) are modelled explicitly on the underlying
character lists so that every definition is executable by the kernel.
Stateful methods are modelled by explicit state passing, and code that can
raise is modelled with `Except` (the error value standing for the raised
exception).
-/

/-- Model of Python `s.split(sep)` for a one-character separator, on the
character list of the string.  `"".split(sep) = [""]`, and consecutive
separators produce empty components, as in Python. -/
def str_split (sep : Char) : List Char → List (List Char)
  | [] => [[]]
  | c :: cs =>
    match str_split sep cs with
    | [] => [[c]]
    | h :: t => if c = sep then [] :: h :: t else (c :: h) :: t

/-- Model of Python `s.endswith(c)` for a one-character suffix. -/
def str_endswith (s : List Char) (c : Char) : Bool :=
  s.getLast? = some c

/-- Model of Python `s.startswith(c)` for a one-character prefix. -/
def str_startswith (s : List Char) (c : Char) : Bool :=
  match s with
  | [] => false
  | a :: _ => a = c

/-- Model of Python `s.replace(c, '')`: delete every occurrence of `c`. -/
def str_removeall (s : List Char) (c : Char) : List Char :=
  s.filter (fun a => a != c)

/-- Model of Python `int(s)` on a digit string with no sign: `None` when the
string is empty or has a non-digit character (Python raises `ValueError`). -/
def str_to_nat (s : List Char) : Option Nat :=
  if s = [] then none
  else if s.all (fun c => c.isDigit) then
    some (s.foldl (fun a c => a * 10 + (c.toNat - 48)) 0)
  else none

/-- Model of Python `int(s)`: an optional leading sign followed by digits;
`None` models the `ValueError` Python raises on malformed input. -/
def int_of_str : List Char → Option Int
  | '-' :: rest => (str_to_nat rest).map (fun n => -(n : Int))
  | '+' :: rest => (str_to_nat rest).map (fun n => (n : Int))
  | s => (str_to_nat s).map (fun n => (n : Int))

/-- `PRIME_DERIVATION_FLAG` from `TrezorClientBase.expand_path`. -/
def PRIME_DERIVATION_FLAG : Nat := 0x80000000

/-- The loop body of `TrezorClientBase.expand_path` for one path component
`x`: strip a trailing prime quote (setting the prime flag), set the prime
flag on a leading minus sign, then `abs(int(x)) | prime`. -/
def expandComponent (x0 : List Char) : Option Nat :=
  let hasQuote := str_endswith x0 '\x27'
  let x := if hasQuote then str_removeall x0 '\x27' else x0
  let prime0 : Nat := if hasQuote then PRIME_DERIVATION_FLAG else 0
  let prime : Nat := if str_startswith x '-' then PRIME_DERIVATION_FLAG else prime0
  (int_of_str x).map (fun v => v.natAbs ||| prime)

/-- `TrezorClientBase.expand_path`: split on `/`, discard the first segment,
and map each remaining component through the loop body.  `none` models the
`ValueError` Python raises on a malformed component. -/
def expand_path (n : String) : Option (List Nat) :=
  ((str_split '/' n.data).drop 1).mapM expandComponent


/-- Keys of the `GuiMixin.messages` dict, which mixes protobuf
button-request codes (ints) and override tags (strings). -/
inductive MsgKey where
  | num (n : Nat)
  | str (s : String)
deriving DecidableEq

/-- The `GuiMixin.messages` template table (the i18n wrapper `_` is the
identity in this model). -/
def messages : List (MsgKey × String) := [
  (MsgKey.num 3, "Confirm transaction outputs on %s device to continue"),
  (MsgKey.num 8, "Confirm transaction fee on %s device to continue"),
  (MsgKey.num 7, "Confirm message to sign on %s device to continue"),
  (MsgKey.num 10, "Confirm address on %s device to continue"),
  (MsgKey.str "change pin", "Confirm PIN change on %s device to continue"),
  (MsgKey.str "default", "Check %s device to continue"),
  (MsgKey.str "homescreen", "Confirm home screen change on %s device to continue"),
  (MsgKey.str "label", "Confirm label change on %s device to continue"),
  (MsgKey.str "remove pin", "Confirm removal of PIN on %s device to continue"),
  (MsgKey.str "passphrase", "Confirm on %s device to continue")]

/-- Model of Python `self.messages.get(k)` (dict lookup without default). -/
def messages_get (k : MsgKey) : Option String :=
  (messages.find? (fun p => p.1 == k)).map (fun p => p.2)

/-- Model of Python `template % arg` for a template containing a single
`%s` format spec: substitute `arg` for the first `%s`. -/
def subst_pct_s : List Char → List Char → List Char
  | [], _ => []
  | '%' :: 's' :: rest, arg => arg ++ rest
  | c :: rest, arg => c :: subst_pct_s rest arg

/-- Python `%`-formatting of a one-`%s` template with one argument. -/
def format_msg (template arg : String) : String :=
  ⟨subst_pct_s template.data arg.data⟩

/-- Model of Python `template % (n, s)` for a template holding one `%d`
followed by one `%s`: the specs are consumed left to right and substituted
text is never rescanned. -/
def subst_pct_d_s : List Char → List Char → List Char → List Char
  | [], _, _ => []
  | '%' :: 'd' :: rest, dArg, sArg => dArg ++ subst_pct_s rest sArg
  | c :: rest, dArg, sArg => c :: subst_pct_d_s rest dArg sArg

/-- The protocol messages the dispatcher can send back to the device
(the `self.proto.*` constructors it uses). -/
inductive ProtoMsg where
  | Cancel
  | ButtonAck
  | PinMatrixAck (pin : String)
  | PassphraseAck (passphrase : String)
  | WordAck (word : String)
  | CharacterAck (fields : List (String × String))
deriving DecidableEq

/-- The two exception kinds `GuiMixin.callback_Failure` can raise.
`silentException` models `lbryum.util.SilentException`, which the wallet
absorbs without showing an error; `runtimeError` models `RuntimeError`
carrying the message text it was constructed with. -/
inductive DispatchError where
  | silentException
  | runtimeError (msg : String)
deriving DecidableEq

/-- The device failure codes the dispatcher compares against
(`self.types.Failure_PinCancelled` and `Failure_ActionCancelled`, constants
of the external protobuf module). -/
structure FailureTypes where
  Failure_PinCancelled : Nat
  Failure_ActionCancelled : Nat

/-- `GuiMixin.callback_Failure`: raise `SilentException` on the two user
cancellation codes, else `RuntimeError(msg.message)`. -/
def callback_Failure (types : FailureTypes) (code : Nat) (message : String) :
    DispatchError :=
  if code = types.Failure_PinCancelled ∨ code = types.Failure_ActionCancelled then
    DispatchError.silentException
  else
    DispatchError.runtimeError message

/-- `GuiMixin.callback_ButtonRequest`: pick the template by the override tag
when set, else by the request code, falling back to the `default` entry;
show it formatted with the device name and answer `ButtonAck`.  The first
component is the text given to `handler.show_message`. -/
def callback_ButtonRequest (msg_code_override : Option String) (code : Nat)
    (device : String) : String × ProtoMsg :=
  let msg_code : MsgKey :=
    match msg_code_override with
    | some m => MsgKey.str m
    | none => MsgKey.num code
  let message := (messages_get msg_code).getD
    ((messages_get (MsgKey.str "default")).getD "")
  (format_msg message device, ProtoMsg.ButtonAck)

/-- The prompt template `GuiMixin.callback_PinMatrixRequest` selects from
the request sub-type. -/
def pin_prompt_template (ty : Nat) : String :=
  if ty = 1 then "Enter your current %s PIN:"
  else if ty = 2 then "Enter a new %s PIN:"
  else if ty = 3 then "Please re-enter your new %s PIN.\nNote the numbers have been shuffled!"
  else "Please enter %s PIN"

/-- `GuiMixin.callback_PinMatrixRequest`: prompt `handler.get_pin` and
answer `Cancel` on a falsy reply (`None` or the empty string), else
`PinMatrixAck(pin=pin)`.  The first component is the prompt text. -/
def callback_PinMatrixRequest (device : String) (ty : Nat)
    (get_pin : String → Option String) : String × ProtoMsg :=
  let prompt := format_msg (pin_prompt_template ty) device
  match get_pin prompt with
  | none => (prompt, ProtoMsg.Cancel)
  | some pin =>
    if pin = "" then (prompt, ProtoMsg.Cancel)
    else (prompt, ProtoMsg.PinMatrixAck pin)

/-- `GuiMixin.callback_PassphraseRequest`: `Cancel` only when
`handler.get_passphrase` returns `None` (the source tests `is None`, not
falsiness), else `PassphraseAck(passphrase=passphrase)`. -/
def callback_PassphraseRequest (device : String)
    (get_passphrase : String → Option String) : String × ProtoMsg :=
  let prompt := format_msg "Please enter your %s passphrase" device
  match get_passphrase prompt with
  | none => (prompt, ProtoMsg.Cancel)
  | some passphrase => (prompt, ProtoMsg.PassphraseAck passphrase)

/-- The prompt text `GuiMixin.callback_WordRequest` builds for step `step`. -/
def word_prompt (step : Nat) (device : String) : String :=
  ⟨subst_pct_d_s
    "Step %d/24.  Enter seed word as explained on your %s:".data
    (toString step).data device.data⟩

/-- `GuiMixin.callback_WordRequest`: increment `self.step`, prompt
`handler.get_word` with the new step number, and always answer `WordAck`
(the device cannot handle a `Cancel` here).  Components: new step counter,
prompt text, response. -/
def callback_WordRequest (device : String) (step : Nat)
    (get_word : String → String) : Nat × String × ProtoMsg :=
  let step1 := step + 1
  let msg := word_prompt step1 device
  let word := get_word msg
  (step1, msg, ProtoMsg.WordAck word)

/-- `GuiMixin.callback_CharacterRequest`: `Cancel` on a falsy reply from
`handler.get_char` (`None` or an empty dict), else
`CharacterAck(**char_info)`.  The dict of keyword fields is modelled as an
association list. -/
def callback_CharacterRequest (get_char : Option (List (String × String))) :
    ProtoMsg :=
  match get_char with
  | none => ProtoMsg.Cancel
  | some char_info =>
    if char_info = [] then ProtoMsg.Cancel
    else ProtoMsg.CharacterAck char_info


/-- The mutable session fields of `TrezorClientBase` the override-setting
operations touch. -/
structure ClientState where
  msg_code_override : Option String
  features_passphrase_protection : Bool
deriving DecidableEq

/-- Python `try: body finally: fin` where `fin` is a plain assignment that
cannot itself raise: the body runs once, then `fin` is applied to the
resulting state whether the body returned or raised. -/
def try_finally {σ ε α : Type} (body : σ → Except ε α × σ) (fin : σ → σ)
    (s : σ) : Except ε α × σ :=
  let r := body s
  (r.1, fin r.2)

/-- `TrezorClientBase.toggle_passphrase`.  The wrapped protocol call
`self.apply_settings(use_passphrase=enabled)` is external and is passed in
as `apply_settings`; an `Except.error` result models it raising. -/
def toggle_passphrase
    (apply_settings : Bool → ClientState → Except String Unit × ClientState)
    (s : ClientState) : Except String Unit × ClientState :=
  let s := { s with msg_code_override := some "passphrase" }
  let enabled := !s.features_passphrase_protection
  try_finally (apply_settings enabled)
    (fun s => { s with msg_code_override := none }) s

/-- `TrezorClientBase.change_label`; `apply_settings` stands for the external
`self.apply_settings(label=label)` call. -/
def change_label
    (apply_settings : String → ClientState → Except String Unit × ClientState)
    (label : String) (s : ClientState) : Except String Unit × ClientState :=
  let s := { s with msg_code_override := some "label" }
  try_finally (apply_settings label)
    (fun s => { s with msg_code_override := none }) s

/-- `TrezorClientBase.change_homescreen`; `apply_settings` stands for the
external `self.apply_settings(homescreen=homescreen)` call. -/
def change_homescreen
    (apply_settings : String → ClientState → Except String Unit × ClientState)
    (homescreen : String) (s : ClientState) : Except String Unit × ClientState :=
  let s := { s with msg_code_override := some "homescreen" }
  try_finally (apply_settings homescreen)
    (fun s => { s with msg_code_override := none }) s

/-- The override tag `TrezorClientBase.set_pin` selects: Python
`'remove pin' if remove else 'change pin'`. -/
def pin_override_tag (remove : Bool) : String :=
  if remove then "remove pin" else "change pin"

/-- `TrezorClientBase.set_pin`; `change_pin` stands for the external
`self.change_pin(remove)` call. -/
def set_pin
    (change_pin : Bool → ClientState → Except String Unit × ClientState)
    (remove : Bool) (s : ClientState) : Except String Unit × ClientState :=
  let s := { s with msg_code_override := some (pin_override_tag remove) }
  try_finally (change_pin remove)
    (fun s => { s with msg_code_override := none }) s

/-- `TrezorClientBase.clear_session`: log, invoke the underlying protocol
session-clear (`underlying`, an `Except.error` modelling it raising), and
swallow any exception, logging it.  Components: outcome (an `Except.error`
would model `clear_session` itself raising) and the `print_error` log. -/
def clear_session (selfStr : String) (underlying : Except String Unit) :
    Except String Unit × List String :=
  let logs := ["clear session: " ++ selfStr]
  match underlying with
  | Except.ok _ => (Except.ok (), logs)
  | Except.error e => (Except.ok (), logs ++ ["clear_session: ignoring error " ++ e])

/-- `TrezorClientBase.close`: log, run `clear_session` (propagating an
exception from it, were it to raise), then `self.transport.close()`, whose
outcome is passed in as `transportClose`. -/
def close (selfStr : String) (underlyingClear : Except String Unit)
    (transportClose : Except String Unit) : Except String Unit × List String :=
  let logs := ["closing client"]
  let cs := clear_session selfStr underlyingClear
  match cs.1 with
  | Except.error e => (Except.error e, logs ++ cs.2)
  | Except.ok _ => (transportClose, logs ++ cs.2)

/-- The fields of the device-reported `features` snapshot that the session
layer projects. -/
structure Features where
  label : String
  initialized : Bool
  passphrase_protection : Bool
  major_version : Nat
  minor_version : Nat
  patch_version : Nat

/-- `TrezorClientBase.firmware_version`. -/
def firmware_version (f : Features) : Nat × Nat × Nat :=
  (f.major_version, f.minor_version, f.patch_version)

/-- Python 2 `cmp` on two numbers: `-1`, `0` or `1`. -/
def pyCmp (a b : Nat) : Int :=
  if a < b then -1 else if a = b then 0 else 1

/-- Python 2 `cmp` on two triples: lexicographic, the first unequal
component decides. -/
def cmpTriple (x y : Nat × Nat × Nat) : Int :=
  if pyCmp x.1 y.1 ≠ 0 then pyCmp x.1 y.1
  else if pyCmp x.2.1 y.2.1 ≠ 0 then pyCmp x.2.1 y.2.1
  else pyCmp x.2.2 y.2.2

/-- `TrezorClientBase.atleast_version`: `cmp(self.firmware_version(),
(major, minor, patch))`. -/
def atleast_version (f : Features) (major minor patch : Nat) : Int :=
  cmpTriple (firmware_version f) (major, minor, patch)

/-- Strict lexicographic order on version triples, the comparison the spec
names for the three-way result. -/
def lexLtTriple (x y : Nat × Nat × Nat) : Prop :=
  x.1 < y.1 ∨ (x.1 = y.1 ∧ (x.2.1 < y.2.1 ∨ (x.2.1 = y.2.1 ∧ x.2.2 < y.2.2)))

/-- State threaded through a wrapped method: the number of
`handler.finished()` calls made so far, and the rest of the world the
underlying method may act on. -/
structure MState (ρ : Type) where
  finishedCount : Nat
  rest : ρ
deriving DecidableEq

/-- The shape of a device operation: it may change state and either return
a value or raise (`Except.error`). -/
def PyMethod (ρ α : Type) : Type :=
  MState ρ → Except String α × MState ρ

/-- `TrezorClientBase.wrapper`: run `func`, and in a `finally` block call
`self.handler.finished()` (modelled as bumping `finishedCount`), whether
`func` returned or raised; the result or exception is passed through. -/
def wrapper {ρ α : Type} (func : PyMethod ρ α) : PyMethod ρ α :=
  fun s =>
    let r := func s
    (r.1, { r.2 with finishedCount := r.2.finishedCount + 1 })

/-- The method list of `TrezorClientBase.wrap_methods`. -/
def wrappedMethodList : List String :=
  ["apply_settings", "change_pin", "decrypt_message",
   "get_address", "get_public_node",
   "load_device_by_mnemonic", "load_device_by_xprv",
   "recovery_device", "reset_device", "sign_message",
   "sign_tx", "wipe_device"]

/-- `TrezorClientBase.wrap_methods`: for each name in the list, replace the
class attribute by its wrapped form (`setattr(cls, m, wrapper(getattr(cls,
m)))`), the class modelled as a map from method name to method. -/
def wrap_methods {ρ α : Type} (cls : String → PyMethod ρ α) :
    String → PyMethod ρ α :=
  wrappedMethodList.foldl
    (fun c m => fun n => if n = m then wrapper (c m) else c n) cls

/-- C7: `expand_path` discards the first slash-separated segment and maps
each remaining component to its absolute integer value, OR-ing in
`0x80000000` when the component ends in a prime quote or starts with a
minus sign; in particular on the path `m`, `0`, `1` primed, minus `2` it
yields `[0, 0x80000001, 0x80000002]`, and the discarded first segment does
not influence the result. -/
theorem expand_path_spec :
    expand_path "m/0/1\x27/-2" = some [0, 0x80000001, 0x80000002] ∧
    expand_path "xpub/0/1\x27/-2" = expand_path "m/0/1\x27/-2" := by
  decide

/-- C9: `atleast_version` is the three-way ordering (negative, zero,
positive for less, equal, greater) of the device firmware version triple
against the given `(major, minor, patch)` triple, compared
lexicographically. -/
theorem atleast_version_spec :
    ∀ (f : Features) (major minor patch : Nat),
      (atleast_version f major minor patch < 0 ↔
        lexLtTriple (firmware_version f) (major, minor, patch)) ∧
      (atleast_version f major minor patch = 0 ↔
        firmware_version f = (major, minor, patch)) ∧
      (0 < atleast_version f major minor patch ↔
        lexLtTriple (major, minor, patch) (firmware_version f)) := by
  intro f major minor patch
  obtain ⟨_, _, _, a, b, c⟩ := f
  simp only [atleast_version, cmpTriple, pyCmp, firmware_version, lexLtTriple,
    Prod.mk.injEq]
  refine ⟨?_, ?_, ?_⟩ <;> split_ifs <;> simp_all <;> omega

/-- C8: `clear_session` swallows any exception from the underlying
session-clear, returning normally in every case and logging the swallowed
error; consequently `close` never raises when the clear-session step is the
operation that raises (its outcome is then just that of the transport
close, here successful). -/
theorem clear_session_close_spec :
    (∀ (s : String) (u : Except String Unit),
      (clear_session s u).1 = Except.ok ()) ∧
    (∀ (s e : String),
      ("clear_session: ignoring error " ++ e) ∈
        (clear_session s (Except.error e)).2) ∧
    (∀ (s : String) (u : Except String Unit),
      (close s u (Except.ok ())).1 = Except.ok ()) := by
  refine ⟨?_, ?_, ?_⟩
  · intro s u; cases u <;> rfl
  · intro s e; simp [clear_session]
  · intro s u; cases u <;> rfl

/-- C1: `callback_Failure` raises the silent cancellation exception exactly
on the two user-cancellation failure codes, and for every other code raises
a runtime error carrying the device-supplied message text verbatim. -/
theorem callback_Failure_spec :
    ∀ (t : FailureTypes) (code : Nat) (message : String),
      ((code = t.Failure_PinCancelled ∨ code = t.Failure_ActionCancelled) →
        callback_Failure t code message = DispatchError.silentException) ∧
      (¬(code = t.Failure_PinCancelled ∨ code = t.Failure_ActionCancelled) →
        callback_Failure t code message = DispatchError.runtimeError message) := by
  intro t code message
  constructor
  · intro h; simp [callback_Failure, h]
  · intro h; simp [callback_Failure, h]

/-- Witness for C1 at the concrete code table `{PinCancelled := 6,
ActionCancelled := 4}`: code 4 is silent, code 9 surfaces its message. -/
theorem callback_Failure_spec_witness :
    callback_Failure ⟨6, 4⟩ 4 "cancelled" = DispatchError.silentException ∧
    callback_Failure ⟨6, 4⟩ 9 "Invalid signature" =
      DispatchError.runtimeError "Invalid signature" :=
  ⟨(callback_Failure_spec ⟨6, 4⟩ 4 "cancelled").1 (Or.inr rfl),
   (callback_Failure_spec ⟨6, 4⟩ 9 "Invalid signature").2 (by decide)⟩

/-- Substituting symbolic arguments into the concrete word-request template
splits it around the two format specs. -/
theorem subst_word_template (t d : List Char) :
    subst_pct_d_s "Step %d/24.  Enter seed word as explained on your %s:".data t d =
      "Step ".data ++ (t ++ ("/24.  Enter seed word as explained on your ".data ++
        (d ++ ":".data))) := rfl

/-- The word-request prompt spells out the step number verbatim between
the fixed pieces of the template. -/
theorem word_prompt_eq (n : Nat) (device : String) :
    word_prompt n device =
      "Step " ++ toString n ++ "/24.  Enter seed word as explained on your " ++
        device ++ ":" := by
  apply String.ext
  show subst_pct_d_s _ _ _ = _
  rw [subst_word_template]
  simp [String.data_append, List.append_assoc]

/-- C6: each word request increments the step counter by exactly 1, the new
counter value appears verbatim as the step number of the `Step N of 24`
prompt handed to `get_word`, and the response is always a `WordAck`
carrying the returned word, never a `Cancel`. -/
theorem callback_WordRequest_spec :
    ∀ (device : String) (step : Nat) (get_word : String → String),
      (callback_WordRequest device step get_word).1 = step + 1 ∧
      (callback_WordRequest device step get_word).2.1 =
        "Step " ++ toString (step + 1) ++
          "/24.  Enter seed word as explained on your " ++ device ++ ":" ∧
      (callback_WordRequest device step get_word).2.2 =
        ProtoMsg.WordAck
          (get_word ((callback_WordRequest device step get_word).2.1)) ∧
      (callback_WordRequest device step get_word).2.2 ≠ ProtoMsg.Cancel := by
  intro device step get_word
  refine ⟨rfl, word_prompt_eq (step + 1) device, rfl, ?_⟩
  simp [callback_WordRequest]

/-- Counterexample for C3 as frozen: an empty (but not `None`) passphrase
does NOT produce a `Cancel`; the dispatcher acknowledges it with
`PassphraseAck("")`, because the source tests `is None` rather than
falsiness for passphrases. -/
theorem passphrase_empty_not_cancel :
    (callback_PassphraseRequest "TREZOR" (fun _ => some "")).2 =
      ProtoMsg.PassphraseAck "" ∧
    (callback_PassphraseRequest "TREZOR" (fun _ => some "")).2 ≠
      ProtoMsg.Cancel := by
  decide

/-- C3 (amended): a `None` or empty PIN and a `None` or empty character
reply produce a `Cancel` and no acknowledgement, and a non-empty reply the
matching acknowledgement; for passphrases only `None` produces a `Cancel`,
while any returned string — the empty string included — is acknowledged
with `PassphraseAck` carrying it. -/
theorem prompt_response_spec :
    ∀ (device : String) (ty : Nat) (r q : Option String)
      (ci : Option (List (String × String))),
      ((r = none ∨ r = some "") →
        (callback_PinMatrixRequest device ty (fun _ => r)).2 = ProtoMsg.Cancel) ∧
      (∀ p, r = some p → p ≠ "" →
        (callback_PinMatrixRequest device ty (fun _ => r)).2 =
          ProtoMsg.PinMatrixAck p) ∧
      (q = none →
        (callback_PassphraseRequest device (fun _ => q)).2 = ProtoMsg.Cancel) ∧
      (∀ p, q = some p →
        (callback_PassphraseRequest device (fun _ => q)).2 =
          ProtoMsg.PassphraseAck p) ∧
      ((ci = none ∨ ci = some []) →
        callback_CharacterRequest ci = ProtoMsg.Cancel) ∧
      (∀ l, ci = some l → l ≠ [] →
        callback_CharacterRequest ci = ProtoMsg.CharacterAck l) := by
  intro device ty r q ci
  refine ⟨?_, ?_, ?_, ?_, ?_, ?_⟩
  · rintro (rfl | rfl) <;> simp [callback_PinMatrixRequest]
  · rintro p rfl hp; simp [callback_PinMatrixRequest, hp]
  · rintro rfl; simp [callback_PassphraseRequest]
  · rintro p rfl; simp [callback_PassphraseRequest]
  · rintro (rfl | rfl) <;> simp [callback_CharacterRequest]
  · rintro l rfl hl; simp [callback_CharacterRequest, hl]

/-- Witness for C3 (amended) at concrete replies: cancelled PIN, entered
PIN, cancelled passphrase, entered passphrase, empty and non-empty
character info. -/
theorem prompt_response_spec_witness :
    (callback_PinMatrixRequest "T" 1 (fun _ => none)).2 = ProtoMsg.Cancel ∧
    (callback_PinMatrixRequest "T" 1 (fun _ => some "1234")).2 =
      ProtoMsg.PinMatrixAck "1234" ∧
    (callback_PassphraseRequest "T" (fun _ => none)).2 = ProtoMsg.Cancel ∧
    (callback_PassphraseRequest "T" (fun _ => some "x")).2 =
      ProtoMsg.PassphraseAck "x" ∧
    callback_CharacterRequest (some []) = ProtoMsg.Cancel ∧
    callback_CharacterRequest (some [("character", "a")]) =
      ProtoMsg.CharacterAck [("character", "a")] :=
  ⟨(prompt_response_spec "T" 1 none none none).1 (Or.inl rfl),
   (prompt_response_spec "T" 1 (some "1234") none none).2.1 "1234" rfl (by decide),
   (prompt_response_spec "T" 1 none none none).2.2.1 rfl,
   (prompt_response_spec "T" 1 none (some "x") none).2.2.2.1 "x" rfl,
   (prompt_response_spec "T" 1 none none (some [])).2.2.2.2.1 (Or.inr rfl),
   (prompt_response_spec "T" 1 none none
      (some [("character", "a")])).2.2.2.2.2 _ rfl (by decide)⟩

/-- C4: a button-confirmation request is always answered with `ButtonAck`,
and the shown text comes from the override mode's template when the
override is set (whatever the request code), from the request code's
template when unset, and from the generic fallback template when the code
is not in the table. -/
theorem callback_ButtonRequest_spec :
    ∀ (ov : Option String) (code : Nat) (device : String),
      (callback_ButtonRequest ov code device).2 = ProtoMsg.ButtonAck ∧
      (∀ m, ov = some m →
        (callback_ButtonRequest ov code device).1 =
          format_msg ((messages_get (MsgKey.str m)).getD
            "Check %s device to continue") device) ∧
      (ov = none →
        (callback_ButtonRequest ov code device).1 =
          format_msg ((messages_get (MsgKey.num code)).getD
            "Check %s device to continue") device) ∧
      (ov = none → messages_get (MsgKey.num code) = none →
        (callback_ButtonRequest ov code device).1 =
          format_msg "Check %s device to continue" device) := by
  intro ov code device
  have hdef : (messages_get (MsgKey.str "default")).getD "" =
      "Check %s device to continue" := by decide
  refine ⟨rfl, ?_, ?_, ?_⟩
  · rintro m rfl
    simp only [callback_ButtonRequest, hdef]
  · rintro rfl
    simp only [callback_ButtonRequest, hdef]
  · rintro rfl h
    simp only [callback_ButtonRequest, hdef, h, Option.getD_none]

/-- Witness for C4: with the `label` override set the label template is
shown for a transaction-output request code, and with no override an
unknown code falls back to the generic template. -/
theorem callback_ButtonRequest_spec_witness :
    (callback_ButtonRequest (some "label") 3 "TREZOR").2 = ProtoMsg.ButtonAck ∧
    (callback_ButtonRequest (some "label") 3 "TREZOR").1 =
      format_msg ((messages_get (MsgKey.str "label")).getD
        "Check %s device to continue") "TREZOR" ∧
    (callback_ButtonRequest none 99 "TREZOR").1 =
      format_msg "Check %s device to continue" "TREZOR" :=
  ⟨(callback_ButtonRequest_spec (some "label") 3 "TREZOR").1,
   (callback_ButtonRequest_spec (some "label") 3 "TREZOR").2.1 "label" rfl,
   (callback_ButtonRequest_spec none 99 "TREZOR").2.2.2 rfl (by decide)⟩

/-- C5: each override-setting operation is the underlying call bracketed by
setting the override to its designated tag and a guaranteed reset: the
underlying call receives the state with the tag set (and, for
`toggle_passphrase`, the passphrase flag flipped to its negation, so
enabling it when protection is currently disabled), its result or exception
is passed through, and the override is `none` again when control returns,
whether the call returned or raised. -/
theorem override_ops_spec :
    ∀ (ap cp : Bool → ClientState → Except String Unit × ClientState)
      (apl aph : String → ClientState → Except String Unit × ClientState)
      (lab hs : String) (remove : Bool) (s : ClientState),
      toggle_passphrase ap s =
        ((ap (!s.features_passphrase_protection)
            { s with msg_code_override := some "passphrase" }).1,
         { (ap (!s.features_passphrase_protection)
              { s with msg_code_override := some "passphrase" }).2 with
            msg_code_override := none }) ∧
      (toggle_passphrase ap s).2.msg_code_override = none ∧
      change_label apl lab s =
        ((apl lab { s with msg_code_override := some "label" }).1,
         { (apl lab { s with msg_code_override := some "label" }).2 with
            msg_code_override := none }) ∧
      (change_label apl lab s).2.msg_code_override = none ∧
      change_homescreen aph hs s =
        ((aph hs { s with msg_code_override := some "homescreen" }).1,
         { (aph hs { s with msg_code_override := some "homescreen" }).2 with
            msg_code_override := none }) ∧
      (change_homescreen aph hs s).2.msg_code_override = none ∧
      set_pin cp remove s =
        ((cp remove
            { s with msg_code_override := some (pin_override_tag remove) }).1,
         { (cp remove
              { s with msg_code_override := some (pin_override_tag remove) }).2 with
            msg_code_override := none }) ∧
      (set_pin cp remove s).2.msg_code_override = none := by
  intro ap cp apl aph lab hs remove s
  exact ⟨rfl, rfl, rfl, rfl, rfl, rfl, rfl, rfl⟩

/-- On each name of the wrapped-method list, `wrap_methods` installs the
wrapped form of the original method under that name. -/
theorem wrap_methods_eq {ρ α : Type} (cls : String → PyMethod ρ α)
    (n : String) (hn : n ∈ wrappedMethodList) :
    wrap_methods cls n = wrapper (cls n) := by
  fin_cases hn <;> rfl

/-- C2: for every operation name in the wrapped-method list and every
input, one call through `wrap_methods` bumps the `handler.finished()` call
count by exactly one — both when the underlying operation returns normally
and when it raises — provided the underlying operation itself does not
call `finished()`. -/
theorem wrapped_methods_finished_once :
    ∀ {ρ α : Type} (n : String), n ∈ wrappedMethodList →
      ∀ (cls : String → PyMethod ρ α) (s : MState ρ),
        ((cls n) s).2.finishedCount = s.finishedCount →
        ((wrap_methods cls n) s).2.finishedCount = s.finishedCount + 1 := by
  intro ρ α n hn cls s hfunc
  rw [wrap_methods_eq cls n hn]
  simp only [wrapper, hfunc]

/-- Witness for C2 at `sign_tx` with an underlying method that leaves the
state unchanged and returns normally: the finished count goes from 0 to 1. -/
theorem wrapped_methods_finished_once_witness :
    ("sign_tx" ∈ wrappedMethodList) ∧
    ((wrap_methods (fun _ => (fun s => (Except.ok (), s))) "sign_tx"
        (⟨0, ()⟩ : MState Unit)).2.finishedCount = 0 + 1) := by
  have h : ("sign_tx" : String) ∈ wrappedMethodList := by decide
  exact ⟨h, wrapped_methods_finished_once "sign_tx" h
    (fun _ => (fun s => (Except.ok (), s))) ⟨0, ()⟩ rfl⟩

/-- C10: the wrapper is transparent apart from the completion signal: the
wrapped call yields exactly the underlying method's return value or raised
exception, leaves the rest of the state exactly as the underlying method
left it, and adds precisely one `handler.finished()` call. -/
theorem wrapper_transparent :
    ∀ {ρ α : Type} (func : PyMethod ρ α) (s : MState ρ),
      (wrapper func s).1 = (func s).1 ∧
      (wrapper func s).2.rest = (func s).2.rest ∧
      (wrapper func s).2.finishedCount = (func s).2.finishedCount + 1 := by
  intro ρ α func s
  exact ⟨rfl, rfl, rfl⟩
